import Mathlib

/-!
Verification development for the MindMate mental-health companion backend
and client. The definitions below are shallow embeddings of the server
controllers (mood and journal CRUD, statistics, insights), the Mongoose
model hooks, and the client token-refresh logic; the theorems settle the
specification's testable properties against them.

Conventions of the embedding:
- Mongo ObjectIds and user ids are `Nat`.
- Timestamps (`createdAt`) are `Nat` seconds; calendar-day grouping uses
  division by 86400 (a single fixed UTC-style time zone).
- JavaScript numbers that hold sentiment scores are `ℚ`.
- Optional / possibly-`undefined` JS fields are `Option` fields; the JS
  falsy test on them is modelled explicitly (`none` or the zero value).
- A controller response is a `CtrlResult`: `ok status data` or
  `err status message`, mirroring `res.status(n).json(...)` versus
  `next(new ErrorResponse(msg, n))`.
-/

/-- The authenticated caller (`req.user`) as the controllers see it:
an id and a role string. -/
structure AuthUser where
  id : Nat
  role : String
deriving DecidableEq

/-- A persisted document of the `Mood` model (server/models/Mood.js). -/
structure MoodEntry where
  id : Nat
  user : Nat
  mood : String
  intensity : Nat
  note : Option String
  activities : List String
  tags : List String
  createdAt : Nat
deriving DecidableEq

/-- A persisted document of the `Journal` model (server/models/Journal.js). -/
structure JournalEntry where
  id : Nat
  user : Nat
  title : Option String
  content : String
  emotion : String
  sentimentScore : Option ℚ
  mood : Nat
  tags : List String
  isPrivate : Bool
  createdAt : Nat
deriving DecidableEq

/-- A create-request body (`req.body`) for `POST /api/mood`; the client may
or may not supply a `user` field. -/
structure MoodBody where
  user : Option Nat
  mood : String
  intensity : Nat
  note : Option String
  activities : List String
  tags : List String
deriving DecidableEq

/-- A create-request body (`req.body`) for `POST /api/journal`. -/
structure JournalBody where
  user : Option Nat
  title : Option String
  content : String
  emotion : Option String
  sentimentScore : Option ℚ
  mood : Nat
  tags : List String
  isPrivate : Option Bool
deriving DecidableEq

/-- A controller response: success (`res.status(n).json({success:true,...})`)
or error (`next(new ErrorResponse(message, n))`). -/
inductive CtrlResult (α : Type) where
  | ok (status : Nat) (data : α)
  | err (status : Nat) (message : String)
deriving DecidableEq

/-- The HTTP status carried by a controller response. -/
def ctrlStatus {α : Type} : CtrlResult α → Nat
  | .ok s _ => s
  | .err s _ => s

/-- Whether a controller response is an error. -/
def ctrlIsErr {α : Type} : CtrlResult α → Bool
  | .ok _ _ => false
  | .err _ _ => true

/-! ### String helpers for the keyword sentiment heuristic -/

/-- `leadsWith s pat`: `pat` occurs at the very start of `s`
(character-list version of a startsWith test). -/
def leadsWith : List Char → List Char → Bool
  | _, [] => true
  | [], _ :: _ => false
  | a :: s, b :: t => a == b && leadsWith s t

/-- `containsSub s pat`: `pat` occurs contiguously somewhere in `s` —
the semantics of JavaScript `String.prototype.includes`. -/
def containsSub : List Char → List Char → Bool
  | [], pat => pat.isEmpty
  | a :: rest, pat => leadsWith (a :: rest) pat || containsSub rest pat

/-- ASCII lower-casing, the effect of `toLowerCase()` on the word lists used
by the heuristic. -/
def lowerStr (s : String) : String := ⟨s.data.map Char.toLower⟩

/-- `content.includes(word)` after lower-casing the content. -/
def containsWord (content : String) (w : String) : Bool :=
  containsSub content.data w.data

/-- The positive word list of the Journal pre-save sentiment heuristic. -/
def positiveWords : List String :=
  ["happy", "joy", "excited", "good", "great", "amazing", "wonderful"]

/-- The negative word list of the Journal pre-save sentiment heuristic. -/
def negativeWords : List String :=
  ["sad", "angry", "anxious", "bad", "terrible", "awful", "worst"]

/-- The keyword sentiment heuristic of `journalSchema.pre('save')`
(server/models/Journal.js): +1 per positive word contained in the
lower-cased content, -1 per negative word, then `score / 5` clamped to
`[-1, 1]` via `Math.max(-1, Math.min(1, score / 5))`. -/
def computeSentiment (content : String) : ℚ :=
  let c := lowerStr content
  let score : Int :=
    ((positiveWords.filter (containsWord c)).length : Int) -
      ((negativeWords.filter (containsWord c)).length : Int)
  max (-1) (min 1 ((score : ℚ) / 5))

/-- JS falsy test on a numeric field that may be `undefined`:
true for `undefined` (`none`) and for `0`. -/
def isFalsyScore : Option ℚ → Bool
  | none => true
  | some q => decide (q = 0)

/-- JS falsy test on a string field that may be `undefined`:
true for `undefined` (`none`) and for the empty string. -/
def isFalsyStr : Option String → Bool
  | none => true
  | some s => s == ""

/-- `journalSchema.pre('save')` (server/models/Journal.js): when the
`content` path is modified and `!this.sentimentScore`, the keyword
heuristic overwrites the score; otherwise the stored score is untouched. -/
def journalPreSave (contentModified : Bool) (content : String)
    (sentimentScore : Option ℚ) : Option ℚ :=
  if contentModified && isFalsyScore sentimentScore then
    some (computeSentiment content)
  else sentimentScore

/-! ### Mood model pre-save defaults (server/models/Mood.js) -/

/-- The `days` array of the Mood pre-save hook, indexed by `getDay()`. -/
def dayNames : List String :=
  ["sunday", "monday", "tuesday", "wednesday", "thursday", "friday", "saturday"]

/-- `Date.prototype.getDay` for a seconds timestamp (epoch day 0 was a
Thursday, index 4). -/
def getDay (t : Nat) : Nat := (t / 86400 + 4) % 7

/-- `Date.prototype.getHours` for a seconds timestamp. -/
def getHours (t : Nat) : Nat := t % 86400 / 3600

/-- The `timeOfDay` virtual of the Mood model: morning before 12,
afternoon before 17, evening before 21, otherwise night. -/
def timeOfDay (t : Nat) : String :=
  let hour := getHours t
  if hour < 12 then "morning"
  else if hour < 17 then "afternoon"
  else if hour < 21 then "evening"
  else "night"

/-- The weekday tag the Mood pre-save hook derives from `createdAt`. -/
def dayName (t : Nat) : String := dayNames.getD (getDay t) ""

/-- The default note text `Feeling ${mood} with intensity ${intensity}/10`. -/
def noteDefault (mood : String) (intensity : Nat) : String :=
  s!"Feeling {mood} with intensity {intensity}/10"

/-- `moodSchema.pre('save')` (server/models/Mood.js): fill a default note
when `!this.note`, and default tags `[dayOfWeek, timeOfDay]` when the tag
list is empty. -/
def moodPreSave (m : MoodEntry) : MoodEntry :=
  let m1 :=
    if isFalsyStr m.note then
      { m with note := some (noteDefault m.mood m.intensity) }
    else m
  if m1.tags.isEmpty then
    { m1 with tags := [dayName m1.createdAt, timeOfDay m1.createdAt] }
  else m1

/-! ### Create controllers -/

/-- `createMood` (server/controllers/moodController.js): the controller
executes `req.body.user = req.user.id` and then `Mood.create(req.body)`,
which runs the Mood pre-save hook. `newId` and `now` stand for the
server-assigned document id and creation timestamp. -/
def createMood (reqUser : AuthUser) (body : MoodBody) (newId now : Nat) :
    MoodEntry :=
  let body := { body with user := some reqUser.id }
  moodPreSave
    { id := newId
      user := body.user.getD 0
      mood := body.mood
      intensity := body.intensity
      note := body.note
      activities := body.activities
      tags := body.tags
      createdAt := now }

/-- `createJournal` (server/controllers/journalController.js): the
controller executes `req.body.user = req.user.id` and then
`Journal.create(req.body)`, which runs the Journal pre-save sentiment hook
(on a fresh document the `content` path counts as modified). Schema
defaults: `emotion` falls back to `neutral`, `isPrivate` to `true`. -/
def createJournal (reqUser : AuthUser) (body : JournalBody) (newId now : Nat) :
    JournalEntry :=
  let body := { body with user := some reqUser.id }
  { id := newId
    user := body.user.getD 0
    title := body.title
    content := body.content
    emotion := body.emotion.getD "neutral"
    sentimentScore := journalPreSave true body.content body.sentimentScore
    mood := body.mood
    tags := body.tags
    isPrivate := body.isPrivate.getD true
    createdAt := now }

/-! ### Get / update / delete controllers (mood and journal) -/

/-- `Mood.findById` over the persisted collection. -/
def findMood (db : List MoodEntry) (id : Nat) : Option MoodEntry :=
  db.find? (fun e => e.id == id)

/-- `Journal.findById` over the persisted collection. -/
def findJournal (db : List JournalEntry) (id : Nat) : Option JournalEntry :=
  db.find? (fun e => e.id == id)

/-- The ownership check the six single-resource handlers all perform:
`doc.user.toString() !== req.user.id && req.user.role !== 'admin'`. -/
def authDenied (owner : Nat) (reqUser : AuthUser) : Bool :=
  owner != reqUser.id && reqUser.role != "admin"

/-- The 404 message of the mood controller. -/
def moodNotFoundMsg (id : Nat) : String :=
  s!"Mood entry not found with id of {id}"

/-- The 401 message of the mood controller; `verb` is access, update or
delete as in the source. -/
def moodDeniedMsg (uid : Nat) (verb : String) : String :=
  s!"User {uid} is not authorized to {verb} this mood entry"

/-- The 404 message of the journal controller. -/
def journalNotFoundMsg (id : Nat) : String :=
  s!"Journal not found with id of {id}"

/-- The 401 message of the journal controller. -/
def journalDeniedMsg (uid : Nat) (verb : String) : String :=
  s!"User {uid} is not authorized to {verb} this journal"

/-- A `PUT /api/mood/:id` request body: every field optional; Mongoose
`findByIdAndUpdate` writes exactly the fields that are present. -/
structure MoodPatch where
  user : Option Nat
  mood : Option String
  intensity : Option Nat
  note : Option String
  activities : Option (List String)
  tags : Option (List String)
deriving DecidableEq

/-- A `PUT /api/journal/:id` request body. -/
structure JournalPatch where
  user : Option Nat
  title : Option String
  content : Option String
  emotion : Option String
  sentimentScore : Option ℚ
  mood : Option Nat
  tags : Option (List String)
  isPrivate : Option Bool
deriving DecidableEq

/-- The `mood` enum of the Mood schema (also the `emotion` enum of the
Journal schema — the two lists coincide in the source). -/
def moodEnumValues : List String :=
  ["happy", "sad", "anxious", "angry", "calm", "excited", "grateful",
   "tired", "neutral"]

/-- The `activities` element enum of the Mood schema. -/
def moodActivityValues : List String :=
  ["work", "exercise", "social", "family", "hobby", "rest", "other"]

/-- The schema validators Mongoose runs on an update because of
`runValidators: true`: update validators check exactly the paths the body
sets (an omitted path is not validated, and `required` cannot fire on a
path the update does not touch). For the Mood schema: `mood` in its enum,
`intensity` in 1..10, `note` at most 500 characters, each activity in its
enum; `user` and `tags` carry no range constraint. -/
def moodUpdateValidators (p : MoodPatch) : Bool :=
  (match p.mood with
   | none => true
   | some m => moodEnumValues.contains m) &&
  (match p.intensity with
   | none => true
   | some i => decide (1 ≤ i) && decide (i ≤ 10)) &&
  (match p.note with
   | none => true
   | some s => decide (s.length ≤ 500)) &&
  (match p.activities with
   | none => true
   | some l => l.all fun a => moodActivityValues.contains a)

/-- The update validators of the Journal schema: `title` at most 100
characters, `content` nonempty when explicitly set (Mongoose `required`
rejects an empty string written to the path), `emotion` in its enum,
`sentimentScore` in [-1, 1], `mood` in 1..5; `user`, `tags` and
`isPrivate` carry no range constraint. -/
def journalUpdateValidators (p : JournalPatch) : Bool :=
  (match p.title with
   | none => true
   | some s => decide (s.length ≤ 100)) &&
  (match p.content with
   | none => true
   | some s => !(s == "")) &&
  (match p.emotion with
   | none => true
   | some m => moodEnumValues.contains m) &&
  (match p.sentimentScore with
   | none => true
   | some q => decide (-1 ≤ q) && decide (q ≤ 1)) &&
  (match p.mood with
   | none => true
   | some m => decide (1 ≤ m) && decide (m ≤ 5))

/-- The effect of `Mood.findByIdAndUpdate(id, req.body, {new:true,
runValidators:true})` on the found document when validation passes: each
field present in the body is written, the rest keep their stored value.
Update queries do not run the `pre('save')` hooks. -/
def applyMoodPatch (e : MoodEntry) (p : MoodPatch) : MoodEntry :=
  { e with
    user := p.user.getD e.user
    mood := p.mood.getD e.mood
    intensity := p.intensity.getD e.intensity
    note := match p.note with | some s => some s | none => e.note
    activities := p.activities.getD e.activities
    tags := p.tags.getD e.tags }

/-- The effect of `Journal.findByIdAndUpdate(id, req.body, {new:true,
runValidators:true})`; like the mood case, no `pre('save')` hook runs, so
`sentimentScore` is written only when the body carries it. -/
def applyJournalPatch (e : JournalEntry) (p : JournalPatch) : JournalEntry :=
  { e with
    user := p.user.getD e.user
    title := match p.title with | some s => some s | none => e.title
    content := p.content.getD e.content
    emotion := p.emotion.getD e.emotion
    sentimentScore :=
      match p.sentimentScore with | some q => some q | none => e.sentimentScore
    mood := p.mood.getD e.mood
    tags := p.tags.getD e.tags
    isPrivate := p.isPrivate.getD e.isPrivate }

/-- `getMood` (server/controllers/moodController.js): 404 when absent, 401
when the caller is neither owner nor admin, else the document. -/
def getMood (db : List MoodEntry) (reqUser : AuthUser) (id : Nat) :
    CtrlResult MoodEntry :=
  match findMood db id with
  | none => .err 404 (moodNotFoundMsg id)
  | some mood =>
    if authDenied mood.user reqUser then
      .err 401 (moodDeniedMsg reqUser.id "access")
    else .ok 200 mood

/-- `updateMood` (server/controllers/moodController.js): 404 when absent,
401 when the caller is neither owner nor admin, else `findByIdAndUpdate`
with the whole request body — `runValidators: true` makes an invalid body
reject, which `asyncHandler` forwards to the error middleware as a
validation error (status 400 per the spec's taxonomy; the error
middleware itself is not among the sources) — and on success the updated
document (`new: true`). -/
def updateMood (db : List MoodEntry) (reqUser : AuthUser) (id : Nat)
    (p : MoodPatch) : CtrlResult MoodEntry :=
  match findMood db id with
  | none => .err 404 (moodNotFoundMsg id)
  | some mood =>
    if authDenied mood.user reqUser then
      .err 401 (moodDeniedMsg reqUser.id "update")
    else if moodUpdateValidators p then .ok 200 (applyMoodPatch mood p)
    else .err 400 "ValidationError"

/-- `deleteMood` (server/controllers/moodController.js): 404 when absent,
401 when the caller is neither owner nor admin, else `mood.remove()` and a
200 with empty data. -/
def deleteMood (db : List MoodEntry) (reqUser : AuthUser) (id : Nat) :
    CtrlResult Unit :=
  match findMood db id with
  | none => .err 404 (moodNotFoundMsg id)
  | some mood =>
    if authDenied mood.user reqUser then
      .err 401 (moodDeniedMsg reqUser.id "delete")
    else .ok 200 ()

/-- `getJournal` (server/controllers/journalController.js). -/
def getJournal (db : List JournalEntry) (reqUser : AuthUser) (id : Nat) :
    CtrlResult JournalEntry :=
  match findJournal db id with
  | none => .err 404 (journalNotFoundMsg id)
  | some journal =>
    if authDenied journal.user reqUser then
      .err 401 (journalDeniedMsg reqUser.id "access")
    else .ok 200 journal

/-- `updateJournal` (server/controllers/journalController.js): the update
goes through `findByIdAndUpdate` with `runValidators: true` — an invalid
body rejects and surfaces as a validation error (status 400 per the
spec's taxonomy; the error middleware is not among the sources) — and the
query bypasses the pre-save sentiment hook. -/
def updateJournal (db : List JournalEntry) (reqUser : AuthUser) (id : Nat)
    (p : JournalPatch) : CtrlResult JournalEntry :=
  match findJournal db id with
  | none => .err 404 (journalNotFoundMsg id)
  | some journal =>
    if authDenied journal.user reqUser then
      .err 401 (journalDeniedMsg reqUser.id "update")
    else if journalUpdateValidators p then
      .ok 200 (applyJournalPatch journal p)
    else .err 400 "ValidationError"

/-- `deleteJournal` (server/controllers/journalController.js). -/
def deleteJournal (db : List JournalEntry) (reqUser : AuthUser) (id : Nat) :
    CtrlResult Unit :=
  match findJournal db id with
  | none => .err 404 (journalNotFoundMsg id)
  | some journal =>
    if authDenied journal.user reqUser then
      .err 401 (journalDeniedMsg reqUser.id "delete")
    else .ok 200 ()

/-- The Mood pre-save hook never touches the `user` field. -/
theorem moodPreSave_user (m : MoodEntry) : (moodPreSave m).user = m.user := by
  simp only [moodPreSave]
  split <;> split <;> rfl

/-- C1: for every create request for a Mood or Journal entry by an
authenticated user, the stored entry's owner field equals the caller's
user id, regardless of any `user` value supplied in the request body. -/
theorem create_stamps_owner (u : AuthUser) (bm : MoodBody) (bj : JournalBody)
    (i₁ t₁ i₂ t₂ : Nat) :
    (createMood u bm i₁ t₁).user = u.id ∧
    (createJournal u bj i₂ t₂).user = u.id := by
  constructor
  · simp [createMood, moodPreSave_user]
  · rfl

/-! ### Ownership authorization (C2, C3) -/

/-- The denial branch fires exactly when the caller is neither the owner
nor an admin. -/
theorem authDenied_eq_true {owner : Nat} {u : AuthUser}
    (h1 : owner ≠ u.id) (h2 : u.role ≠ "admin") : authDenied owner u = true := by
  simp [authDenied, bne_iff_ne]
  exact ⟨h1, h2⟩

/-- Owners and admins pass the ownership check. -/
theorem authDenied_eq_false {owner : Nat} {u : AuthUser}
    (h : u.id = owner ∨ u.role = "admin") : authDenied owner u = false := by
  rcases h with h | h
  · simp [authDenied, h]
  · simp [authDenied, h]

/-- A concrete stored mood entry owned by user 1. -/
def m0 : MoodEntry :=
  { id := 7, user := 1, mood := "calm", intensity := 5, note := some "n",
    activities := [], tags := ["t"], createdAt := 1000 }

/-- A concrete stored journal entry owned by user 1. -/
def j0 : JournalEntry :=
  { id := 9, user := 1, title := none, content := "c", emotion := "neutral",
    sentimentScore := none, mood := 3, tags := [], isPrivate := true,
    createdAt := 500 }

/-- The owner of `m0` and `j0`. -/
def alice : AuthUser := { id := 1, role := "user" }

/-- A non-owner, non-admin caller. -/
def mallory : AuthUser := { id := 2, role := "user" }

/-- A patch that touches nothing. -/
def emptyMoodPatch : MoodPatch := ⟨none, none, none, none, none, none⟩

/-- A patch that touches nothing. -/
def emptyJournalPatch : JournalPatch :=
  ⟨none, none, none, none, none, none, none, none⟩

/-- A patch that supplies only a new `user` field. -/
def ownerMoodPatch : MoodPatch := ⟨some 2, none, none, none, none, none⟩

/-- C2 counterexample: when a non-owner, non-admin user (id 2) tries to get
user 1's mood entry, the code denies — but surfaces the denial with HTTP
status 401, not the 403 the claim names. -/
theorem ownership_denial_status_is_401_not_403 :
    getMood [m0] mallory 7 = .err 401 (moodDeniedMsg 2 "access") ∧
    (401 : Nat) ≠ 403 := by
  constructor
  · rfl
  · decide

/-- C2 (amended): for users A and B with A neither owner nor admin, every
get, update, or delete by A on another user's Mood or Journal entry is
denied — surfaced with status code 401 (the controllers reuse the
unauthenticated code rather than 403) — while owners and admins (B) are
allowed (for updates, with a body that passes the schema's update
validation; an invalid body is a validation error, not a denial). -/
theorem ownership_denial_and_allowance
    (dbM : List MoodEntry) (dbJ : List JournalEntry) (A B : AuthUser)
    (iM iJ : Nat) (m : MoodEntry) (j : JournalEntry)
    (pM : MoodPatch) (pJ : JournalPatch)
    (hm : findMood dbM iM = some m) (hj : findJournal dbJ iJ = some j)
    (hvM : moodUpdateValidators pM = true)
    (hvJ : journalUpdateValidators pJ = true)
    (hA1 : m.user ≠ A.id) (hA2 : j.user ≠ A.id) (hA3 : A.role ≠ "admin")
    (hB1 : B.id = m.user ∨ B.role = "admin")
    (hB2 : B.id = j.user ∨ B.role = "admin") :
    (getMood dbM A iM = .err 401 (moodDeniedMsg A.id "access") ∧
     updateMood dbM A iM pM = .err 401 (moodDeniedMsg A.id "update") ∧
     deleteMood dbM A iM = .err 401 (moodDeniedMsg A.id "delete") ∧
     getJournal dbJ A iJ = .err 401 (journalDeniedMsg A.id "access") ∧
     updateJournal dbJ A iJ pJ = .err 401 (journalDeniedMsg A.id "update") ∧
     deleteJournal dbJ A iJ = .err 401 (journalDeniedMsg A.id "delete")) ∧
    (getMood dbM B iM = .ok 200 m ∧
     updateMood dbM B iM pM = .ok 200 (applyMoodPatch m pM) ∧
     deleteMood dbM B iM = .ok 200 () ∧
     getJournal dbJ B iJ = .ok 200 j ∧
     updateJournal dbJ B iJ pJ = .ok 200 (applyJournalPatch j pJ) ∧
     deleteJournal dbJ B iJ = .ok 200 ()) := by
  have hdm := authDenied_eq_true hA1 hA3
  have hdj := authDenied_eq_true hA2 hA3
  have ham := authDenied_eq_false hB1
  have haj := authDenied_eq_false hB2
  refine ⟨⟨?_, ?_, ?_, ?_, ?_, ?_⟩, ?_, ?_, ?_, ?_, ?_, ?_⟩ <;>
    simp [getMood, updateMood, deleteMood, getJournal, updateJournal,
      deleteJournal, hm, hj, hdm, hdj, ham, haj, hvM, hvJ]

/-- C2 witness: the amended theorem applied to the concrete one-entry
stores, the non-owner `mallory` and the owner `alice`. -/
theorem ownership_denial_and_allowance_witness :
    getMood [m0] mallory 7 = .err 401 (moodDeniedMsg mallory.id "access") ∧
    getMood [m0] alice 7 = .ok 200 m0 := by
  have h := ownership_denial_and_allowance [m0] [j0] mallory alice 7 9 m0 j0
    emptyMoodPatch emptyJournalPatch (by decide) (by decide) (by decide)
    (by decide) (by decide) (by decide) (by decide) (by decide) (by decide)
  exact ⟨h.1.1, h.2.1⟩

/-- C3: evaluating `updateMood` at the failing input — the owner updates
their own entry with a body that carries `user: 2` — shows the stored
owner field is rewritten from 1 to 2: `findByIdAndUpdate` persists the
whole request body, so ownerId is not preserved. -/
theorem update_patch_reassigns_owner :
    updateMood [m0] alice 7 ownerMoodPatch = .ok 200 { m0 with user := 2 } ∧
    m0.user = 1 ∧ ({ m0 with user := 2 } : MoodEntry).user ≠ m0.user := by
  decide

/-- The update validation path is live: an owner's body with intensity 99
(outside the schema's 1..10) is rejected as a validation error, not
applied. -/
theorem updateMood_rejects_invalid_intensity :
    updateMood [m0] alice 7 ⟨none, none, some 99, none, none, none⟩ =
      .err 400 "ValidationError" := by
  decide

/-- Likewise for the journal schema: a body with mood 99 (outside 1..5)
fails update validation. -/
theorem updateJournal_rejects_invalid_mood :
    updateJournal [j0] alice 9
      ⟨none, none, none, none, none, some 99, none, none⟩ =
      .err 400 "ValidationError" := by
  decide

/-! ### Client token renewal (client/src/services/authService.ts) -/

/-- The client-side refresh machinery's shared state: the module-level
`refreshTokenRequest` slot (holding the id of the in-flight renewal
promise, if any), the number of network renewal calls issued so far, and a
fresh-id counter for promises. -/
structure RefreshState where
  refreshTokenRequest : Option Nat
  networkCalls : Nat
  nextId : Nat
deriving DecidableEq

/-- State before any renewal: empty slot, no network calls. -/
def initialRefreshState : RefreshState := ⟨none, 0, 0⟩

/-- The synchronous prefix of `authService.refreshToken`: between entering
the function and its first `await` there is no suspension point, so under
the JS run-to-completion model this check-and-set is atomic. A caller that
finds `refreshTokenRequest` set joins that promise; otherwise it issues
the network call (`api.post('/auth/refresh-token')`), stores the promise,
and awaits it. Returns the id of the promise the caller awaits. -/
def refreshTokenAcquire (s : RefreshState) : Nat × RefreshState :=
  match s.refreshTokenRequest with
  | some p => (p, s)
  | none => (s.nextId, ⟨some s.nextId, s.networkCalls + 1, s.nextId + 1⟩)

/-- The `finally` of `authService.refreshToken`, run when a caller's await
completes: clears the slot. -/
def refreshTokenRelease (s : RefreshState) : RefreshState :=
  { s with refreshTokenRequest := none }

/-- `n` requests that concurrently observed an expired token each run the
atomic prefix of `refreshToken`, one after the other, before any renewal
completes; returns the promise id each caller awaits and the final state. -/
def runConcurrentRefreshes : Nat → RefreshState → List Nat × RefreshState
  | 0, s => ([], s)
  | n + 1, s =>
    let a := refreshTokenAcquire s
    let r := runConcurrentRefreshes n a.2
    (a.1 :: r.1, r.2)

/-- While a renewal promise is in flight, further callers neither change
the state nor issue network calls: they all receive the in-flight id. -/
theorem runConcurrentRefreshes_inflight (n : Nat) (s : RefreshState) (p : Nat)
    (h : s.refreshTokenRequest = some p) :
    runConcurrentRefreshes n s = (List.replicate n p, s) := by
  induction n with
  | zero => simp [runConcurrentRefreshes]
  | succ k ih =>
    simp [runConcurrentRefreshes, refreshTokenAcquire, h, ih,
      List.replicate_succ]

/-- C5: when `n ≥ 1` requests concurrently observe an expired token,
exactly one network renewal call is issued, and every caller awaits that
single in-flight renewal (they all hold the same promise id, hence share
its result, success or failure). -/
theorem refresh_single_flight (n : Nat) (h : 1 ≤ n) :
    (runConcurrentRefreshes n initialRefreshState).2.networkCalls = 1 ∧
    ∀ p ∈ (runConcurrentRefreshes n initialRefreshState).1, p = 0 := by
  cases n with
  | zero => omega
  | succ k =>
    have hstep :
        runConcurrentRefreshes (k + 1) initialRefreshState =
          (0 :: List.replicate k 0, ⟨some 0, 1, 1⟩) := by
      simp [runConcurrentRefreshes, refreshTokenAcquire, initialRefreshState,
        runConcurrentRefreshes_inflight k ⟨some 0, 1, 1⟩ 0 rfl]
    rw [hstep]
    constructor
    · rfl
    · intro p hp
      rcases List.mem_cons.mp hp with h0 | h0
      · exact h0
      · exact List.eq_of_mem_replicate h0

/-- C5 witness: three concurrent 401 observers issue one renewal call. -/
theorem refresh_single_flight_witness :
    1 ≤ 3 ∧
    (runConcurrentRefreshes 3 initialRefreshState).2.networkCalls = 1 :=
  ⟨by decide, (refresh_single_flight 3 (by decide)).1⟩

/-! ### Response interceptor retry discipline
(client/src/services/authService.ts, `api.interceptors.response.use` and
`authService.setupResponseInterceptor` — both carry the same logic) -/

/-- The outcome of driving one outbound request through the interceptor. -/
inductive ReqOutcome where
  | success (status : Nat)
  | failure (status : Nat)
  | loginRedirect
  | pending
deriving DecidableEq

/-- Drive one outbound request through axios with the response
interceptor installed. The list holds the statuses the server answers
with, attempt after attempt; `retryFlag` is the request's `_retry` mark.
Per response: a 2xx resolves; otherwise the error interceptor runs —
`status !== 401 || _retry` rejects outright; a first 401 marks `_retry`,
renews (counted), and replays the request; a failed renewal redirects to
login. Returns the outcome and the number of renewal calls made. -/
def processResponses : List Nat → Bool → Bool → ReqOutcome × Nat
  | [], _, _ => (.pending, 0)
  | s :: rest, retryFlag, refreshOk =>
    if 200 ≤ s ∧ s < 300 then (.success s, 0)
    else if s ≠ 401 ∨ retryFlag = true then (.failure s, 0)
    else if refreshOk then
      let r := processResponses rest true refreshOk
      (r.1, r.2 + 1)
    else (.loginRedirect, 1)

/-- Once `_retry` is set, the interceptor never renews again. -/
theorem processResponses_marked (l : List Nat) (ok : Bool) :
    (processResponses l true ok).2 = 0 := by
  cases l with
  | nil => rfl
  | cons s rest =>
    simp only [processResponses]
    split
    · rfl
    · rw [if_pos (by simp : s ≠ 401 ∨ True)]

/-- C6: for every outbound request, at most one renewal-and-retry cycle is
performed, and a second 401 after a successful renewal is surfaced as a
hard failure rather than looping. -/
theorem retry_at_most_once :
    (∀ (resps : List Nat) (refreshOk : Bool),
      (processResponses resps false refreshOk).2 ≤ 1) ∧
    (∀ rest : List Nat,
      processResponses (401 :: 401 :: rest) false true = (.failure 401, 1)) := by
  constructor
  · intro resps ok
    cases resps with
    | nil => simp [processResponses]
    | cons s rest =>
      simp only [processResponses]
      split
      · simp
      · split
        · simp
        · split
          · simp [processResponses_marked]
          · simp
  · intro rest
    simp [processResponses]

/-! ### Statistics timelines (C8)
`getMoodStats` (moodController) and `getJournalStats` (journalController):
the `moodTimeline` and `journalTimeline` aggregation pipelines. -/

/-- Keys in first-occurrence order, the grouping discipline of a Mongo
`$group` rendered deterministic (accumulator of already-seen keys). -/
def dedupFirstAux {α : Type} [DecidableEq α] (seen : List α) :
    List α → List α
  | [] => []
  | a :: l =>
    if a ∈ seen then dedupFirstAux seen l
    else a :: dedupFirstAux (a :: seen) l

/-- First-occurrence deduplication (also the semantics of a JS `Set`
built from a list). -/
def dedupFirst {α : Type} [DecidableEq α] (l : List α) : List α :=
  dedupFirstAux [] l

/-- Deduplication only drops elements. -/
theorem mem_of_mem_dedupFirstAux {α : Type} [DecidableEq α]
    {l : List α} {b : α} :
    ∀ {seen : List α}, b ∈ dedupFirstAux seen l → b ∈ l := by
  induction l with
  | nil => intro seen h; simp [dedupFirstAux] at h
  | cons a l ih =>
    intro seen h
    simp only [dedupFirstAux] at h
    split at h
    · exact List.mem_cons_of_mem a (ih h)
    · rcases List.mem_cons.mp h with h | h
      · exact h ▸ List.mem_cons_self a l
      · exact List.mem_cons_of_mem a (ih h)

/-- Deduplication only drops elements. -/
theorem mem_of_mem_dedupFirst {α : Type} [DecidableEq α] {l : List α} {b : α}
    (h : b ∈ dedupFirst l) : b ∈ l :=
  mem_of_mem_dedupFirstAux h

/-- One `$group` bucket of a timeline pipeline: the `$dateToString` day
key, `$sum: 1` count, and `$avg` of the numeric field. -/
structure DayGroup where
  day : Nat
  count : Nat
  avg : ℚ
deriving DecidableEq

/-- Ascending order on day keys — the `$sort: { _id: 1 }` stage
(lexicographic on `%Y-%m-%d` strings is chronological). -/
def dayLE (a b : DayGroup) : Prop := a.day ≤ b.day

instance : DecidableRel dayLE := fun a b => Nat.decLe a.day b.day

instance : IsTotal DayGroup dayLE := ⟨fun a b => Nat.le_total a.day b.day⟩

instance : IsTrans DayGroup dayLE := ⟨fun _ _ _ hab hbc => Nat.le_trans hab hbc⟩

/-- The `$avg` accumulator over the matched documents' numeric field. -/
def ratAvg (l : List Nat) : ℚ :=
  ((l.map fun n => (n : ℚ)).sum) / (l.length : ℚ)

/-- `$group` by calendar day (`$dateToString: '%Y-%m-%d'`, here
`createdAt / 86400`) with `count: { $sum: 1 }` and an `$avg` accumulator,
followed by `$sort: { _id: 1 }`. -/
def groupByDay {α : Type} (l : List α) (date : α → Nat) (val : α → Nat) :
    List DayGroup :=
  List.insertionSort dayLE
    ((dedupFirst (l.map fun e => date e / 86400)).map fun k =>
      { day := k
        count := (l.filter fun e => date e / 86400 == k).length
        avg := ratAvg ((l.filter fun e => date e / 86400 == k).map val) })

/-- The `moodTimeline` pipeline of `getMoodStats`: `$match` on the user
and `createdAt: { $gte: thirtyDaysAgo }`, then group by day with
`avgIntensity`, sorted ascending by day. -/
def moodTimeline (db : List MoodEntry) (uid now : Nat) : List DayGroup :=
  groupByDay
    (db.filter fun e => e.user == uid && decide (now - 30 * 86400 ≤ e.createdAt))
    (fun e => e.createdAt) (fun e => e.intensity)

/-- The `journalTimeline` pipeline of `getJournalStats`: `$match` on the
user only (no date condition), group by day with `avgMood`, `$sort` by day
ascending, then `$limit: 30`. -/
def journalTimeline (db : List JournalEntry) (uid : Nat) : List DayGroup :=
  (groupByDay (db.filter fun e => e.user == uid)
    (fun e => e.createdAt) (fun e => e.mood)).take 30

/-- Every emitted bucket comes from a matched document of its day, and its
count is the number of matched documents on that day. -/
theorem groupByDay_mem {α : Type} (l : List α) (date val : α → Nat)
    {g : DayGroup} (hg : g ∈ groupByDay l date val) :
    (∃ e ∈ l, date e / 86400 = g.day) ∧
    g.count = (l.filter fun e => date e / 86400 == g.day).length := by
  have h1 := (List.perm_insertionSort dayLE _).mem_iff.mp hg
  obtain ⟨k, hk, hfk⟩ := List.mem_map.mp h1
  obtain ⟨e, he, hde⟩ := List.mem_map.mp (mem_of_mem_dedupFirst hk)
  subst hfk
  exact ⟨⟨e, he, hde⟩, rfl⟩

/-- The group stage output is sorted ascending by day key. -/
theorem groupByDay_sorted {α : Type} (l : List α) (date val : α → Nat) :
    (groupByDay l date val).Sorted dayLE :=
  List.sorted_insertionSort dayLE _

/-- C8 counterexample: a journal entry written on day 0 still appears in
the journal timeline — `journalTimeline` takes no reference time at all —
even though, for a query issued at day 40, a trailing 30-day window
(which the mood pipeline does apply) would exclude it. -/
theorem journal_timeline_ignores_window :
    ((journalTimeline
        [{ id := 11, user := 1, title := none, content := "c",
           emotion := "neutral", sentimentScore := none, mood := 3,
           tags := [], isPrivate := true, createdAt := 0 }] 1).map
      (fun g => (g.day, g.count))) = [(0, 1)] ∧
    moodTimeline
        [{ id := 12, user := 1, mood := "calm", intensity := 5,
           note := some "n", activities := [], tags := ["t"],
           createdAt := 0 }] 1 (40 * 86400) = [] ∧
    ¬ ((40 * 86400 - 30 * 86400) / 86400 ≤ 0) := by
  refine ⟨by decide, by decide, by decide⟩

/-- C8 (amended): the mood timeline is restricted to the trailing 30-day
window, but the journal timeline has no window — it groups all of the
user's entries by calendar day and truncates to the first 30 day-groups.
Both group per calendar day with a count and an average, are sorted
ascending by day, and emit no bucket for a day without entries. -/
theorem timeline_amended (dbM : List MoodEntry) (dbJ : List JournalEntry)
    (uid now : Nat) :
    (∀ g ∈ moodTimeline dbM uid now,
      (now - 30 * 86400) / 86400 ≤ g.day ∧
      (∃ e ∈ dbM, e.user = uid ∧ now - 30 * 86400 ≤ e.createdAt ∧
        e.createdAt / 86400 = g.day) ∧
      g.count = ((dbM.filter fun e =>
          e.user == uid && decide (now - 30 * 86400 ≤ e.createdAt)).filter
        fun e => e.createdAt / 86400 == g.day).length) ∧
    (moodTimeline dbM uid now).Sorted dayLE ∧
    (∀ g ∈ journalTimeline dbJ uid,
      (∃ e ∈ dbJ, e.user = uid ∧ e.createdAt / 86400 = g.day) ∧
      g.count = ((dbJ.filter fun e => e.user == uid).filter
        fun e => e.createdAt / 86400 == g.day).length) ∧
    (journalTimeline dbJ uid).Sorted dayLE ∧
    (journalTimeline dbJ uid).length ≤ 30 := by
  refine ⟨?_, ?_, ?_, ?_, ?_⟩
  · intro g hg
    obtain ⟨⟨e, he, hde⟩, hcount⟩ := groupByDay_mem _ _ _ hg
    obtain ⟨heDb, hp⟩ := List.mem_filter.mp he
    have hp' := hp
    rw [Bool.and_eq_true, beq_iff_eq, decide_eq_true_eq] at hp'
    refine ⟨?_, ⟨e, heDb, hp'.1, hp'.2, hde⟩, hcount⟩
    calc (now - 30 * 86400) / 86400 ≤ e.createdAt / 86400 :=
          Nat.div_le_div_right hp'.2
      _ = g.day := hde
  · exact groupByDay_sorted _ _ _
  · intro g hg
    have hg' := (List.take_sublist 30 _).subset hg
    obtain ⟨⟨e, he, hde⟩, hcount⟩ := groupByDay_mem _ _ _ hg'
    obtain ⟨heDb, hp⟩ := List.mem_filter.mp he
    rw [beq_iff_eq] at hp
    exact ⟨⟨e, heDb, hp, hde⟩, hcount⟩
  · exact List.Pairwise.sublist (List.take_sublist 30 _) (groupByDay_sorted _ _ _)
  · exact List.length_take_le 30 _

/-! ### Mood insights (C9)
`getMoodInsights` (server/controllers/moodController.js): a pure function
of the user's last-7-days mood entries. -/

/-- `Mood.find(...).sort({ createdAt: -1 })` — newest first. -/
def createdDesc (a b : MoodEntry) : Prop := b.createdAt ≤ a.createdAt

instance : DecidableRel createdDesc := fun a b => Nat.decLe b.createdAt a.createdAt

instance : IsTotal MoodEntry createdDesc :=
  ⟨fun a b => Nat.le_total b.createdAt a.createdAt⟩

instance : IsTrans MoodEntry createdDesc :=
  ⟨fun _ _ _ hab hbc => Nat.le_trans hbc hab⟩

/-- Sort mood entries newest-first. -/
def sortDescCreated (l : List MoodEntry) : List MoodEntry :=
  List.insertionSort createdDesc l

/-- The JS `reduce`-into-object counting idiom: keys in first-occurrence
order, each with its number of occurrences. -/
def countsBy {α : Type} [DecidableEq α] (l : List α) : List (α × Nat) :=
  (dedupFirst l).map fun a => (a, l.count a)

/-- `(a, b) => b[1] - a[1]` — descending by count (JS sort is stable, as
is insertion sort with this non-strict comparison). -/
def countDesc (a b : String × Nat) : Prop := b.2 ≤ a.2

instance : DecidableRel countDesc := fun a b => Nat.decLe b.2 a.2

/-- `Object.entries(counts).sort((a, b) => b[1] - a[1])[0][0]`. -/
def mostCommonKey (counts : List (String × Nat)) : String :=
  ((List.insertionSort countDesc counts).headD ("", 0)).1

/-- `parseFloat(x.toFixed(2))` modelled as exact rounding (half away from
zero is irrelevant to the claims) to two decimals. -/
def roundTo2 (q : ℚ) : ℚ := ((round (q * 100) : ℤ) : ℚ) / 100

/-- Placeholder for the unreachable head of an empty list (the code only
indexes `recentMoods[0]` on the nonempty branch). -/
def defaultMoodEntry : MoodEntry :=
  { id := 0, user := 0, mood := "", intensity := 0, note := none,
    activities := [], tags := [], createdAt := 0 }

/-- The `stats` object of the insights response. -/
structure InsightsStats where
  averageIntensity : ℚ
  mostCommonMood : String
  moodCounts : List (String × Nat)
  totalEntries : Nat
deriving DecidableEq

/-- The data payload of the insights response on the nonempty branch. -/
structure InsightsData where
  recentMood : MoodEntry
  moodTrend : List (Nat × String × Nat)
  stats : InsightsStats
  insights : List String
  suggestions : List String
deriving DecidableEq

/-- The insights response: either the fixed no-data payload or the full
insights payload. -/
inductive InsightsResult where
  | noData (message : String) (suggestions : List String)
  | insights (d : InsightsData)
deriving DecidableEq

/-- The number of suggestions carried by a no-data response. -/
def noDataSuggestionCount : InsightsResult → Nat
  | .noData _ s => s.length
  | .insights _ => 0

/-- `getMoodInsights` (server/controllers/moodController.js): find the
user's entries of the last 7 days newest-first; on zero entries return
the fixed no-data message with one starter suggestion; otherwise compute
average intensity, mood counts, most common mood, the trend insight
(|Δintensity| > 2 between oldest and newest), the activity insight and
suggestions, mood-specific suggestions, intensity-based suggestions, and
return them with duplicates removed and at most 3 suggestions. -/
def getMoodInsights (db : List MoodEntry) (uid now : Nat) : InsightsResult :=
  let recentMoods := sortDescCreated
    (db.filter fun e => e.user == uid && decide (now - 7 * 86400 ≤ e.createdAt))
  if recentMoods.length = 0 then
    .noData "No mood entries found in the last 7 days"
      ["Start by adding your first mood entry to track your emotional well-being."]
  else
    let avgIntensity : ℚ :=
      ((recentMoods.map fun m => (m.intensity : ℚ)).sum) /
        (recentMoods.length : ℚ)
    let moodCounts := countsBy (recentMoods.map fun m => m.mood)
    let mostCommonMood := mostCommonKey moodCounts
    let trendInsights :=
      match recentMoods.getLast?, recentMoods.head? with
      | some firstMood, some lastMood =>
        let moodChange : Int :=
          (lastMood.intensity : Int) - (firstMood.intensity : Int)
        if 2 < moodChange.natAbs then
          let direction := if 0 < moodChange then "improved" else "declined"
          [s!"Your mood has {direction} significantly over the past week."]
        else []
      | _, _ => []
    let activities := (recentMoods.map fun m => m.activities).flatten
    let activityPair :=
      if 0 < activities.length then
        let mostCommonActivity := mostCommonKey (countsBy activities)
        let ins := [s!"You\x27ve been engaging in {mostCommonActivity} frequently."]
        let sug :=
          if mostCommonActivity = "exercise" then
            ["Keep up with your exercise routine! Regular physical activity is great for mental health."]
          else if mostCommonActivity = "meditation" then
            ["Your meditation practice is helping build mindfulness. Consider trying different techniques."]
          else []
        (ins, sug)
      else ([], [])
    let moodSuggestions :=
      if mostCommonMood = "anxious" then
        ["Try deep breathing exercises to help manage anxiety.",
         "Consider journaling about what\x27s causing your anxiety to better understand and process your feelings."]
      else if mostCommonMood = "sad" then
        ["Reach out to a friend or loved one for support.",
         "Engage in activities you usually enjoy, even if you don\x27t feel like it right now."]
      else if mostCommonMood = "happy" then
        ["Share your positive energy with others!",
         "Take a moment to reflect on what\x27s contributing to your happiness."]
      else []
    let intensitySuggestions :=
      if 7 < avgIntensity then
        ["Your high intensity moods suggest you might benefit from stress-reduction techniques."]
      else if avgIntensity < 4 then
        ["Consider activities that energize you to help lift your mood."]
      else []
    .insights
      { recentMood := recentMoods.headD defaultMoodEntry
        moodTrend := recentMoods.map fun m => (m.createdAt, m.mood, m.intensity)
        stats :=
          { averageIntensity := roundTo2 avgIntensity
            mostCommonMood := mostCommonMood
            moodCounts := moodCounts
            totalEntries := recentMoods.length }
        insights := trendInsights ++ activityPair.1
        suggestions :=
          (dedupFirst (activityPair.2 ++ moodSuggestions ++
            intensitySuggestions)).take 3 }

/-- C9: for every user whose last-7-days window holds no mood entries, the
insights operation returns successfully with the fixed no-data message and
exactly one starter suggestion (a total function: no throw, no division by
zero). -/
theorem insights_empty_window (db : List MoodEntry) (uid now : Nat)
    (h : db.filter
        (fun e => e.user == uid && decide (now - 7 * 86400 ≤ e.createdAt)) = []) :
    getMoodInsights db uid now =
      .noData "No mood entries found in the last 7 days"
        ["Start by adding your first mood entry to track your emotional well-being."] ∧
    noDataSuggestionCount (getMoodInsights db uid now) = 1 := by
  have hmain : getMoodInsights db uid now =
      .noData "No mood entries found in the last 7 days"
        ["Start by adding your first mood entry to track your emotional well-being."] := by
    unfold getMoodInsights
    rw [h]
    rfl
  exact ⟨hmain, by rw [hmain]; rfl⟩

/-- C9 witness: the empty store at time 0. -/
theorem insights_empty_window_witness :
    getMoodInsights [] 1 0 =
      .noData "No mood entries found in the last 7 days"
        ["Start by adding your first mood entry to track your emotional well-being."] ∧
    noDataSuggestionCount (getMoodInsights [] 1 0) = 1 :=
  insights_empty_window [] 1 0 rfl

/-! ### List endpoints (C4) -/

/-- Newest-first order on journal entries. -/
def createdDescJ (a b : JournalEntry) : Prop := b.createdAt ≤ a.createdAt

instance : DecidableRel createdDescJ := fun a b => Nat.decLe b.createdAt a.createdAt

instance : IsTotal JournalEntry createdDescJ :=
  ⟨fun a b => Nat.le_total b.createdAt a.createdAt⟩

instance : IsTrans JournalEntry createdDescJ :=
  ⟨fun _ _ _ hab hbc => Nat.le_trans hbc hab⟩

/-- A field-equality filter over mood entries (query-string style). -/
structure MoodFilter where
  mood : Option String
  intensity : Option Nat
deriving DecidableEq

/-- Whether a mood entry satisfies every field-equality condition. -/
def moodMatches (f : MoodFilter) (e : MoodEntry) : Bool :=
  (match f.mood with | none => true | some m => e.mood == m) &&
  (match f.intensity with | none => true | some i => e.intensity == i)

/-- A field-equality filter over journal entries. -/
structure JournalFilter where
  emotion : Option String
deriving DecidableEq

/-- Whether a journal entry satisfies every field-equality condition. -/
def journalMatches (f : JournalFilter) (e : JournalEntry) : Bool :=
  match f.emotion with | none => true | some m => e.emotion == m

/-- Modelled from the spec: the `advancedResults` middleware
(server/middleware/advancedResults.js) that the mood list route mounts
before `getMoods` is not part of the sources; per the spec,
`list(ownerId, filter, page)` returns resources scoped to `ownerId` only,
supports field-equality filters and page/limit pagination, ordered by
creation time descending. -/
def advancedResultsMood (db : List MoodEntry) (ownerId : Nat)
    (f : MoodFilter) (page limit : Nat) : List MoodEntry :=
  ((List.insertionSort createdDesc
      (db.filter fun e => e.user == ownerId && moodMatches f e)).drop
    ((page - 1) * limit)).take limit

/-- Modelled from the spec: the `advancedResults` middleware instance the
journal list route mounts before `getJournals`; same contract as the mood
list. -/
def advancedResultsJournal (db : List JournalEntry) (ownerId : Nat)
    (f : JournalFilter) (page limit : Nat) : List JournalEntry :=
  ((List.insertionSort createdDescJ
      (db.filter fun e => e.user == ownerId && journalMatches f e)).drop
    ((page - 1) * limit)).take limit

/-- C4: the list operations return only entries owned by the requesting
user (never another owner's), restricted to the field-equality filter,
with at most `limit` entries per page, ordered by creation time
descending. -/
theorem list_scoped_to_owner (dbM : List MoodEntry) (dbJ : List JournalEntry)
    (uid : Nat) (fM : MoodFilter) (fJ : JournalFilter) (page limit : Nat) :
    (∀ e ∈ advancedResultsMood dbM uid fM page limit,
      e.user = uid ∧ moodMatches fM e = true) ∧
    (advancedResultsMood dbM uid fM page limit).length ≤ limit ∧
    (advancedResultsMood dbM uid fM page limit).Sorted createdDesc ∧
    (∀ e ∈ advancedResultsJournal dbJ uid fJ page limit,
      e.user = uid ∧ journalMatches fJ e = true) ∧
    (advancedResultsJournal dbJ uid fJ page limit).length ≤ limit ∧
    (advancedResultsJournal dbJ uid fJ page limit).Sorted createdDescJ := by
  refine ⟨?_, ?_, ?_, ?_, ?_, ?_⟩
  · intro e he
    have h1 := (List.take_sublist limit _).subset he
    have h2 := (List.drop_sublist ((page - 1) * limit) _).subset h1
    have h3 := (List.perm_insertionSort createdDesc _).mem_iff.mp h2
    have hp := (List.mem_filter.mp h3).2
    rw [Bool.and_eq_true, beq_iff_eq] at hp
    exact hp
  · exact List.length_take_le limit _
  · exact List.Pairwise.sublist (List.take_sublist limit _)
      (List.Pairwise.sublist (List.drop_sublist ((page - 1) * limit) _)
        (List.sorted_insertionSort createdDesc _))
  · intro e he
    have h1 := (List.take_sublist limit _).subset he
    have h2 := (List.drop_sublist ((page - 1) * limit) _).subset h1
    have h3 := (List.perm_insertionSort createdDescJ _).mem_iff.mp h2
    have hp := (List.mem_filter.mp h3).2
    rw [Bool.and_eq_true, beq_iff_eq] at hp
    exact hp
  · exact List.length_take_le limit _
  · exact List.Pairwise.sublist (List.take_sublist limit _)
      (List.Pairwise.sublist (List.drop_sublist ((page - 1) * limit) _)
        (List.sorted_insertionSort createdDescJ _))

/-- The everything-matches filter. -/
def noMoodFilter : MoodFilter := ⟨none, none⟩

/-- C4 witness: the one-entry store listed by its owner on page 1. -/
theorem list_scoped_to_owner_witness :
    m0 ∈ advancedResultsMood [m0] 1 noMoodFilter 1 10 ∧ m0.user = 1 :=
  ⟨by decide,
    ((list_scoped_to_owner [m0] [] 1 noMoodFilter ⟨none⟩ 1 10).1 m0
      (by decide)).1⟩

/-! ### Sentiment recomputation (C7, C10) -/

/-- The heuristic's value on the content `sad`. -/
theorem sentiment_sad : computeSentiment "sad" = -(1 / 5) := by
  have hp : (positiveWords.filter (containsWord (lowerStr "sad"))).length = 0 :=
    by decide
  have hn : (negativeWords.filter (containsWord (lowerStr "sad"))).length = 1 :=
    by decide
  simp only [computeSentiment]
  rw [hp, hn]
  norm_num

/-- The heuristic's value on the content `happy`. -/
theorem sentiment_happy : computeSentiment "happy" = 1 / 5 := by
  have hp : (positiveWords.filter (containsWord (lowerStr "happy"))).length = 1 :=
    by decide
  have hn : (negativeWords.filter (containsWord (lowerStr "happy"))).length = 0 :=
    by decide
  simp only [computeSentiment]
  rw [hp, hn]
  norm_num

/-- A create body whose content is `sad` with no supplied score. -/
def sadBody : JournalBody :=
  { user := none, title := none, content := "sad", emotion := none,
    sentimentScore := none, mood := 3, tags := [], isPrivate := none }

/-- The stored entry created from `sadBody`; its score is the heuristic's
value for `sad`. -/
def jSad : JournalEntry := createJournal alice sadBody 21 100

/-- An update body that changes the content to `happy` and supplies no
score. -/
def happyPatch : JournalPatch :=
  { user := none, title := none, content := some "happy", emotion := none,
    sentimentScore := none, mood := none, tags := none, isPrivate := none }

/-- C7 counterexample: the owner changes the entry's content from `sad` to
`happy` without supplying a score, and the stored score stays the one
computed for `sad` — a stale score from the previous content version
(`findByIdAndUpdate` runs no pre-save hook), while a fresh computation for
`happy` differs. -/
theorem stale_sentiment_on_content_update :
    updateJournal [jSad] alice 21 happyPatch =
      .ok 200 { jSad with content := "happy" } ∧
    jSad.sentimentScore = some (computeSentiment "sad") ∧
    ({ jSad with content := "happy" } : JournalEntry).sentimentScore =
      some (computeSentiment "sad") ∧
    computeSentiment "sad" ≠ computeSentiment "happy" := by
  refine ⟨rfl, rfl, rfl, ?_⟩
  rw [sentiment_sad, sentiment_happy]
  norm_num

/-- C7 (amended): the heuristic runs only on the save path — creation
without a supplied score stores the freshly computed score of the created
content; an update through the update endpoint (`findByIdAndUpdate`
bypasses the pre-save hook) whose valid body omits the score keeps the
stored score unchanged whatever the patch does to the content; and even
on a save, a nonzero existing score is never recomputed. -/
theorem sentiment_compute_conditions
    (u : AuthUser) (b : JournalBody) (i t : Nat) (db : List JournalEntry)
    (id : Nat) (p : JournalPatch) (j : JournalEntry) (q : ℚ)
    (hb : b.sentimentScore = none)
    (hp : p.sentimentScore = none)
    (hv : journalUpdateValidators p = true)
    (hfind : findJournal db id = some j)
    (hauth : authDenied j.user u = false)
    (hq : q ≠ 0) :
    (createJournal u b i t).sentimentScore =
      some (computeSentiment b.content) ∧
    updateJournal db u id p = .ok 200 (applyJournalPatch j p) ∧
    (applyJournalPatch j p).sentimentScore = j.sentimentScore ∧
    journalPreSave true b.content (some q) = some q := by
  refine ⟨?_, ?_, ?_, ?_⟩
  · simp [createJournal, journalPreSave, isFalsyScore, hb]
  · simp [updateJournal, hfind, hauth, hv]
  · simp [applyJournalPatch, hp]
  · simp [journalPreSave, isFalsyScore, hq]

/-- C7 witness: creation from `sadBody` computes a fresh score, and an
update with an empty patch keeps `j0`'s stored score. -/
theorem sentiment_compute_conditions_witness :
    (createJournal alice sadBody 21 100).sentimentScore =
      some (computeSentiment sadBody.content) ∧
    (applyJournalPatch j0 emptyJournalPatch).sentimentScore =
      j0.sentimentScore := by
  have h := sentiment_compute_conditions alice sadBody 21 100 [j0] 9
    emptyJournalPatch j0 1 rfl rfl (by decide) (by decide) (by decide)
    one_ne_zero
  exact ⟨h.1, h.2.2.1⟩

/-- C10: in the pre-save hook, a supplied score of exactly 0 is treated as
absent — when the content is set or modified the heuristic overwrites it,
exactly as for a missing score — while any nonzero supplied score is kept
unchanged. -/
theorem zero_sentiment_treated_absent (content : String) (q : ℚ)
    (hq : q ≠ 0) :
    journalPreSave true content (some 0) = some (computeSentiment content) ∧
    journalPreSave true content none = some (computeSentiment content) ∧
    journalPreSave true content (some q) = some q := by
  refine ⟨?_, ?_, ?_⟩
  · simp [journalPreSave, isFalsyScore]
  · simp [journalPreSave, isFalsyScore]
  · simp [journalPreSave, isFalsyScore, hq]

/-- C10 witness: a zero score is overwritten on the content `great day`; a
supplied score of 1 is kept. -/
theorem zero_sentiment_treated_absent_witness :
    journalPreSave true "great day" (some 0) =
      some (computeSentiment "great day") ∧
    journalPreSave true "great day" (some 1) = some 1 := by
  have h := zero_sentiment_treated_absent "great day" 1 one_ne_zero
  exact ⟨h.1, h.2.2⟩
